import Mathlib

/-!
# TrackMe load-test scripts

A shallow embedding of the five k6 scenario scripts under `load-test/`
(`create_clients.js`, `update_clients.js`, `get_user_by_id.js`,
`get_metrics.js`, `test.js`) and the properties of them that the
specification states.

Conventions of the embedding:

* JavaScript values are `JsVal`; an exception is the `Except.error` branch of
  `Except JsError`.
* What the k6 runtime supplies is an input of the embedded function: the HTTP
  response of a request (`Response`), the decoder behind `JSON.parse`
  (`parse : String → Option JsVal`, `none` standing for a `SyntaxError`), and
  every random draw (`randomIntBetween`, `randomItem`, `randomString`,
  `Math.random`, `crypto.randomUUID`).
* `console.log` / `console.error` produce no value and cannot raise by
  themselves; only the evaluation of their argument can, and that evaluation
  is kept.
-/

namespace TrackMe

/-! ## JavaScript values -/

/-- Errors a script can raise. -/
inductive JsError where
  | typeError
  | referenceError
  | syntaxError
  | error (msg : String)
  deriving DecidableEq, Repr

/-- Numbers a JSON text can decode to: a finite value or, for a literal out of
the range of a double, an infinity. -/
inductive JsNum where
  | fin (q : ℚ)
  | inf (negative : Bool)
  deriving DecidableEq, Repr

/-- JavaScript values reachable from JSON data, together with `undefined`. -/
inductive JsVal where
  | undefined
  | null
  | bool (b : Bool)
  | num (n : JsNum)
  | str (s : String)
  | arr (items : List JsVal)
  | obj (fields : List (String × JsVal))

namespace JsVal

/-- ToBoolean: `undefined`, `null`, `false`, `0` and `''` are falsy. -/
def truthy : JsVal → Bool
  | undefined => false
  | null => false
  | bool b => b
  | num (JsNum.fin q) => decide (q ≠ 0)
  | num (JsNum.inf _) => true
  | str s => decide (s ≠ "")
  | arr _ => true
  | obj _ => true

/-- Property read `v.k`. Reading a property of `undefined` or `null` raises a
TypeError; an object yields the field or `undefined`; strings and arrays have
`length`; every other read yields `undefined`. -/
def getProp (v : JsVal) (k : String) : Except JsError JsVal :=
  match v with
  | undefined => Except.error JsError.typeError
  | null => Except.error JsError.typeError
  | obj fields => Except.ok ((fields.lookup k).getD undefined)
  | str s => if k = "length" then Except.ok (num (JsNum.fin s.length)) else Except.ok undefined
  | arr items =>
      if k = "length" then Except.ok (num (JsNum.fin items.length)) else Except.ok undefined
  | bool _ => Except.ok undefined
  | num _ => Except.ok undefined

/-- Strict equality `a === b` between a freshly decoded value and another
value: primitives compare by value, and an object or array is only equal to
itself, which two separately decoded values never are. -/
def strictEq : JsVal → JsVal → Bool
  | undefined, undefined => true
  | null, null => true
  | bool a, bool b => a == b
  | num a, num b => decide (a = b)
  | str a, str b => decide (a = b)
  | _, _ => false

/-- The method call `v.substring(0, n)`: defined on strings only. -/
def substring (v : JsVal) (n : Nat) : Except JsError String :=
  match v with
  | str s => Except.ok (String.mk (s.data.take n))
  | _ => Except.error JsError.typeError

/-- Strings, numbers, booleans and `null`: the JSON scalars. -/
def isScalar : JsVal → Bool
  | null => true
  | bool _ => true
  | num _ => true
  | str _ => true
  | _ => false

/-- The test `v === undefined`. -/
def isUndefined : JsVal → Bool
  | undefined => true
  | _ => false

/-- JSON arrays. -/
def isArray : JsVal → Bool
  | arr _ => true
  | _ => false

/-- JSON objects (not arrays, not `null`). -/
def isObject : JsVal → Bool
  | obj _ => true
  | _ => false

end JsVal

/-! ## The k6 runtime -/

/-- The response object `http.get/post/put` returns. `body` is `none` when k6
reports `null` (no body was received). -/
structure Response where
  status : Int
  body : Option String
  headers : List (String × String)
  duration : ℚ

/-- Embeds `JSON.parse(body)`. A `null` argument is converted to the text `null`,
which decodes to `null`; otherwise the runtime's decoder is applied and a text
it rejects raises a SyntaxError. -/
def JSONparse (parse : String → Option JsVal) (body : Option String) : Except JsError JsVal :=
  match body with
  | none => Except.ok JsVal.null
  | some s =>
    match parse s with
    | some v => Except.ok v
    | none => Except.error JsError.syntaxError

/-- A k6 check set entry: a name and a predicate on the response whose result
is judged by truthiness. -/
abbrev Check := String × (Response → Except JsError JsVal)

/-- The records `check(res, sets)` emits: every predicate is evaluated in
order, an exception in one of them propagates. -/
def runChecks (r : Response) : List Check → Except JsError (List (String × Bool))
  | [] => Except.ok []
  | (name, f) :: rest =>
    match f r with
    | Except.error e => Except.error e
    | Except.ok v =>
      match runChecks r rest with
      | Except.error e => Except.error e
      | Except.ok recs => Except.ok ((name, v.truthy) :: recs)

/-- The value of `check(res, sets)`: true when every predicate was truthy. -/
def allPassed (recs : List (String × Bool)) : Bool :=
  recs.all (fun p => p.2)

/-- A `try { ... } catch { return false }` around a check body. -/
def tryCatchFalse (body : Except JsError JsVal) : Except JsError JsVal :=
  match body with
  | Except.ok v => Except.ok v
  | Except.error _ => Except.ok (JsVal.bool false)

/-- Embeds `s.charAt(i)`: the one-character string at `i`, or the empty string when
`i` is out of range. -/
def charAt (s : String) (i : Nat) : String :=
  match s.data.get? i with
  | some c => String.singleton c
  | none => ""

/-! ## `test.js`: register user -/

namespace Register

/-- The `charset` constant of `generatePassword`. -/
def charset : String :=
  "abcdefghijklmnopqrstuvwxyzABCDEFGHIJKLMNOPQRSTUVWXYZ0123456789!@#$%^&*"

/-- The loop `for (let i = 0; i < length; i++) password += charset.charAt(...)`
of `generatePassword`, from counter `i` on; `draw k` is the value of
`Math.floor(Math.random() * charset.length)` in iteration `k`. -/
def generatePasswordLoop (length : Nat) (draw : Nat → Nat) (i : Nat) (password : String) :
    String :=
  if i < length then
    generatePasswordLoop length draw (i + 1) (password ++ charAt charset (draw i))
  else password
termination_by length - i

/-- Embeds `generatePassword()`, with `length` the value drawn by
`randomIntBetween(8, 16)`. -/
def generatePassword (length : Nat) (draw : Nat → Nat) : String :=
  generatePasswordLoop length draw 0 ""

/-- Embeds `s.includes(t)` on strings. -/
def includes (s t : String) : Bool :=
  decide (t.data <:+: s.data)

/-- The check set of the default function. -/
def checks : List Check :=
  [ ("status is 201 or 409",
      fun r => Except.ok (JsVal.bool (r.status == 201 || r.status == 409))),
    ("response has content-type",
      fun r =>
        match r.headers.lookup "Content-Type" with
        | some v => Except.ok (JsVal.bool (includes v "application/json"))
        | none => Except.error JsError.typeError),
    ("response time < 1s",
      fun r => Except.ok (JsVal.bool (decide (r.duration < 1000)))) ]

/-- The default function, given the response `res` of the register request:
the check records of the iteration. The logging branches on `res.status` read
only `payload.email`, `res.status` and `res.body`, none of which can raise. -/
def default (res : Response) : Except JsError (List (String × Bool)) :=
  runChecks res checks

end Register

/-! ## `create_clients.js` -/

/-- What `setup` of `create_clients.js` and `get_user_by_id.js` returns. -/
structure Session where
  token : JsVal
  userId : JsVal

namespace CreateClients

/-- Embeds `setup()`, given the response `loginRes` of the login request. -/
def setup (parse : String → Option JsVal) (loginRes : Response) : Except JsError Session :=
  if loginRes.status ≠ 200 then
    Except.error (JsError.error ("Login failed: " ++ toString loginRes.status))
  else do
    let response ← JSONparse parse loginRes.body
    let data ← response.getProp "data"
    let token ← data.getProp "token"
    let user ← data.getProp "user"
    let userId ← user.getProp "id"
    let _ ← user.getProp "email"
    pure { token := token, userId := userId }

/-- The array literal indexed for `channel`. -/
def CHANNELS : List String := ["web", "mobile", "api", "partner"]

/-- An array read `xs[i]` on an array of strings: `undefined` out of range. -/
def index (xs : List String) (i : Nat) : JsVal :=
  match xs.get? i with
  | some s => JsVal.str s
  | none => JsVal.undefined

/-- Embeds `generateClientData()`. The draws are inputs: `randomId` is
`crypto.randomUUID()`, `app` and `contractId` the two `randomString` results,
`channelIdx` the value of `randomIntBetween(0, 3)` and `coin` the value of
`Math.random() > 0.5`. -/
def generateClientData (randomId app : String) (channelIdx : Nat) (contractId : String)
    (coin : Bool) : JsVal :=
  JsVal.obj
    [ ("app", JsVal.str app),
      ("channel", index CHANNELS channelIdx),
      ("contracts", JsVal.arr
        [ JsVal.obj
            [ ("amount", JsVal.num (JsNum.fin 10)),
              ("autopayment", JsVal.str "enabled"),
              ("conclusion_date", JsVal.str "2025-01-02T15:04:05Z"),
              ("expiration_date", JsVal.str "2026-01-02T15:04:05Z"),
              ("id", JsVal.str contractId),
              ("name", JsVal.str "Contract"),
              ("number", JsVal.str "CT"),
              ("payment_frequency", JsVal.str "monthly"),
              ("status", JsVal.str "active") ] ]),
      ("email", JsVal.str ("client_" ++ randomId ++ "@test.com")),
      ("is_active", JsVal.bool coin),
      ("last_login", JsVal.str "2026-01-02T15:04:05Z"),
      ("name", JsVal.str "Client"),
      ("source", JsVal.str "google"),
      ("stage", JsVal.str "registration") ]

/-- The check set of the default function. -/
def checks : List Check :=
  [ ("status is 201", fun r => Except.ok (JsVal.bool (r.status == 201))) ]

/-- What one iteration did: the request body it sent and its check records. -/
structure Iteration where
  payload : JsVal
  checks : List (String × Bool)

/-- The default function, given the payload draws and the response `res` of
the create request. On failed checks the second log line evaluates
`res.body.substring(0, 200)`. -/
def default (randomId app : String) (channelIdx : Nat) (contractId : String) (coin : Bool)
    (res : Response) : Except JsError Iteration := do
  let clientData := generateClientData randomId app channelIdx contractId coin
  let recs ← runChecks res checks
  if !allPassed recs then
    match res.body with
    | some b => let _ ← (JsVal.str b).substring 200
    | none => let _ ← JsVal.null.substring 200
  pure { payload := clientData, checks := recs }

end CreateClients

/-! ## `get_user_by_id.js` -/

namespace GetUserById

/-- Embeds `setup()`, given the response `loginRes` of the login request. -/
def setup (parse : String → Option JsVal) (loginRes : Response) : Except JsError Session :=
  if loginRes.status ≠ 200 then
    Except.error (JsError.error
      ("Login failed: " ++ toString loginRes.status ++ " - " ++ loginRes.body.getD "null"))
  else do
    let response ← JSONparse parse loginRes.body
    let data ← response.getProp "data"
    let token ← data.getProp "token"
    let user ← data.getProp "user"
    let userId ← user.getProp "id"
    let _ ← token.substring 30
    pure { token := token, userId := userId }

/-- The body of the check named `response has user data`:
`json.data && json.data.id === data.userId` inside `try`/`catch`. -/
def hasUserData (parse : String → Option JsVal) (userId : JsVal) (r : Response) :
    Except JsError JsVal :=
  tryCatchFalse (do
    let json ← JSONparse parse r.body
    let d ← json.getProp "data"
    if d.truthy then do
      let d2 ← json.getProp "data"
      let id ← d2.getProp "id"
      pure (JsVal.bool (id.strictEq userId))
    else pure d)

/-- The check set of the default function. -/
def checks (parse : String → Option JsVal) (data : Session) : List Check :=
  [ ("status is 200", fun r => Except.ok (JsVal.bool (r.status == 200))),
    ("response has user data", hasUserData parse data.userId),
    ("response time < 500ms", fun r => Except.ok (JsVal.bool (decide (r.duration < 500)))) ]

/-- The default function, given the session and the response `res` of the
`GET /users/id` request: the check records of the iteration. -/
def default (parse : String → Option JsVal) (data : Session) (res : Response) :
    Except JsError (List (String × Bool)) :=
  runChecks res (checks parse data)

end GetUserById

/-! ## `update_clients.js` -/

namespace UpdateClients

/-- The constant `TOTAL_CLIENTS`. -/
def TOTAL_CLIENTS : Nat := 1000

/-- The constant `ALL_STAGES`. -/
def ALL_STAGES : List String :=
  [ "registration",
    "product_selection",
    "data_consent",
    "form_filling",
    "participants_specification",
    "terms_agreement",
    "client_questionnaire",
    "approval_waiting",
    "modifications",
    "document_signing",
    "payment_waiting",
    "completed" ]

/-- An entry of the `clients` array. -/
structure Client where
  id : JsVal
  email : String
  current_stage : JsVal

/-- What `setup` returns. -/
structure Seeded where
  token : JsVal
  clients : List Client

/-- Embeds `randomItem(arr)` of k6-utils, `arr[Math.floor(Math.random() * arr.length)]`,
with the floored product `k` as input. -/
def randomItem (arr : List String) (k : Nat) : JsVal :=
  match arr.get? k with
  | some s => JsVal.str s
  | none => JsVal.undefined

/-- The email template of the seeding loop, with `suffix` the value of
`randomString(6)`. -/
def clientEmail (i : Nat) (suffix : String) : String :=
  "client_" ++ toString i ++ "_" ++ suffix ++ "@test.com"

/-- The object `clientData` of iteration `i` of the seeding loop; `stageDraw`
is the draw behind `randomItem(ALL_STAGES)`, `suffix` the value of
`randomString(6)` and `now` the value of `new Date().toISOString()`. -/
def clientData (i stageDraw : Nat) (suffix now : String) : JsVal :=
  JsVal.obj
    [ ("email", JsVal.str (clientEmail i suffix)),
      ("name", JsVal.str ("Stress Client " ++ toString i)),
      ("stage", randomItem ALL_STAGES stageDraw),
      ("source", JsVal.str "stress_test"),
      ("channel", JsVal.str "web"),
      ("is_active", JsVal.bool true),
      ("last_login", JsVal.str now) ]

/-- The seeding loop `for (let i = 0; i < TOTAL_CLIENTS; i++)` from counter `i`
on, with `clients` the array built so far; `createRes k` is the response of
the create request of iteration `k`, whose body is `clientData k ..`. Of that
body only the email reaches the array. -/
def seedLoop (parse : String → Option JsVal) (suffix : Nat → String)
    (createRes : Nat → Response) (total i : Nat) (clients : List Client) :
    Except JsError (List Client) :=
  if i < total then
    if (createRes i).status = 201 then
      match JSONparse parse (createRes i).body with
      | Except.error e => Except.error e
      | Except.ok clientJson =>
        match clientJson.getProp "data" with
        | Except.error e => Except.error e
        | Except.ok d =>
          match d.getProp "id", d.getProp "current_stage" with
          | Except.ok cid, Except.ok stage =>
            seedLoop parse suffix createRes total (i + 1)
              (clients ++ [{ id := cid, email := clientEmail i (suffix i), current_stage := stage }])
          | Except.error e, _ => Except.error e
          | _, Except.error e => Except.error e
    else seedLoop parse suffix createRes total (i + 1) clients
  else Except.ok clients
termination_by total - i

/-- Embeds `setup()`, given the response `loginRes` of the login request, the
`randomString(6)` draws and the responses of the create requests. -/
def setup (parse : String → Option JsVal) (loginRes : Response) (suffix : Nat → String)
    (createRes : Nat → Response) : Except JsError Seeded :=
  if loginRes.status ≠ 200 then
    Except.error (JsError.error
      ("Login failed: " ++ toString loginRes.status ++ " - " ++ loginRes.body.getD "null"))
  else do
    let loginData ← JSONparse parse loginRes.body
    let data ← loginData.getProp "data"
    let authToken ← data.getProp "token"
    let _ ← authToken.substring 30
    let clients ← seedLoop parse suffix createRes TOTAL_CLIENTS 0 []
    pure { token := authToken, clients := clients }

/-- The object `updatePayload` of the default function. -/
def updatePayload (client : Client) : JsVal :=
  JsVal.obj [ ("email", JsVal.str client.email), ("stage", JsVal.str "registration") ]

/-- The body of the check named `response has data`: `!!json.data` inside
`try`/`catch`. -/
def hasData (parse : String → Option JsVal) (r : Response) : Except JsError JsVal :=
  tryCatchFalse (do
    let json ← JSONparse parse r.body
    let d ← json.getProp "data"
    pure (JsVal.bool d.truthy))

/-- The check set of the default function. -/
def checks (parse : String → Option JsVal) : List Check :=
  [ ("status is 200", fun r => Except.ok (JsVal.bool (r.status == 200))),
    ("response has data", hasData parse) ]

/-- What one iteration did: the request body it sent and its check records. -/
structure Iteration where
  payload : JsVal
  checks : List (String × Bool)

/-- The default function, given the seeded data, the value `randomIndex` of
`randomIntBetween(0, data.clients.length - 1)` and the response `res` of the
update request. `data.clients[randomIndex]` is `undefined` out of range, and
reading `client.email` then raises a TypeError. On failed checks the second
log line evaluates the identifier `targetStage`, which no scope of the script
declares: a ReferenceError. -/
def default (parse : String → Option JsVal) (data : Seeded) (randomIndex : Nat)
    (res : Response) : Except JsError Iteration :=
  match data.clients.get? randomIndex with
  | none => Except.error JsError.typeError
  | some client =>
    match runChecks res (checks parse) with
    | Except.error e => Except.error e
    | Except.ok recs =>
      if !allPassed recs then Except.error JsError.referenceError
      else Except.ok { payload := updatePayload client, checks := recs }

end UpdateClients

/-! ## `get_metrics.js` -/

namespace GetMetrics

/-- The constant `BASE_URL`. -/
def BASE_URL : String := "http://localhost:80"

/-- What `setup` returns. -/
structure Token where
  token : JsVal

/-- Embeds `setup()`, given the response `loginRes` of the login request. -/
def setup (parse : String → Option JsVal) (loginRes : Response) : Except JsError Token := do
  let loginData ← JSONparse parse loginRes.body
  let data ← loginData.getProp "data"
  let token ← data.getProp "token"
  pure { token := token }

/-- The array `variations` of the default function. -/
def variations : List String :=
  [ "?type=rollback-count",
    "?type=rollback-count&interval=day",
    "?type=rollback-count&interval=week",
    "?type=rollback-count&interval=month",
    "?type=rollback-count&limit=10&offset=0",
    "?type=rollback-count&interval=day&limit=50&offset=100" ]

/-- The template substitution of `variations[__ITER % variations.length]`: an
array read out of range would print as `undefined`. -/
def variation (iter : Nat) : String :=
  match variations.get? (iter % variations.length) with
  | some v => v
  | none => "undefined"

/-- The request URL of iteration `iter`. -/
def url (iter : Nat) : String :=
  BASE_URL ++ "/api/v1/metrics" ++ variation iter

/-- The check set of the default function. -/
def checks : List Check :=
  [ ("status is 200", fun r => Except.ok (JsVal.bool (r.status == 200))),
    ("response time < 500ms", fun r => Except.ok (JsVal.bool (decide (r.duration < 500)))) ]

/-- What one iteration did: the URL it requested and its check records. -/
structure Iteration where
  url : String
  checks : List (String × Bool)

/-- The default function, given the iteration counter `__ITER` and the
response `res` of the metrics request. -/
def default (iter : Nat) (res : Response) : Except JsError Iteration :=
  match runChecks res checks with
  | Except.error e => Except.error e
  | Except.ok recs => Except.ok { url := url iter, checks := recs }

/-! ### The documented query form -/

/-- The documented values of `interval`. -/
inductive Interval where
  | day
  | week
  | month
  deriving DecidableEq, Repr

/-- The text of an interval value. -/
def Interval.text : Interval → String
  | Interval.day => "day"
  | Interval.week => "week"
  | Interval.month => "month"

/-- The documented query form
`?type=rollback-count[&interval=day|week|month][&limit=N&offset=M]`, as the
text it denotes for an optional interval and an optional limit/offset pair. -/
def documentedQuery (interval : Option Interval) (page : Option (Nat × Nat)) : String :=
  "?type=rollback-count"
    ++ (match interval with
        | some i => "&interval=" ++ i.text
        | none => "")
    ++ (match page with
        | some (n, m) => "&limit=" ++ toString n ++ "&offset=" ++ toString m
        | none => "")

end GetMetrics

/-! ## Request bodies -/

/-- The field names `JSON.stringify` writes for an object: those whose value is
not `undefined`, in order. -/
def sentFields : JsVal → List String
  | JsVal.obj fields => (fields.filter (fun p => !p.2.isUndefined)).map Prod.fst
  | _ => []

/-! ## Vocabulary of the statements -/

/-- The number a list of decimal digit characters denotes. -/
def decimalValue (ds : List Char) : Nat :=
  ds.foldl (fun a c => 10 * a + (c.toNat - 48)) 0

/-- The field set the interface description lists for `POST /api/v1/clients`. -/
def documentedClientFields : List String :=
  ["app", "channel", "contracts", "email", "is_active", "last_login", "name", "source", "stage"]

/-- The field set the seeding loop of `update_clients.js` sends. -/
def seededClientFields : List String :=
  ["email", "name", "stage", "source", "channel", "is_active", "last_login"]

/-- A request body has exactly the field set `fs`. -/
def hasExactlyFields (body : JsVal) (fs : List String) : Prop :=
  ∀ f, f ∈ sentFields body ↔ f ∈ fs

/-- Iteration `n` of the metrics scenario requests the documented combination
`interval`, with (`paged`) or without the limit/offset pair. -/
def exercises (n : Nat) (interval : Option GetMetrics.Interval) (paged : Bool) : Prop :=
  if paged then
    ∃ limit offset : Nat, GetMetrics.url n = GetMetrics.BASE_URL ++ "/api/v1/metrics"
      ++ GetMetrics.documentedQuery interval (some (limit, offset))
  else
    GetMetrics.url n = GetMetrics.BASE_URL ++ "/api/v1/metrics"
      ++ GetMetrics.documentedQuery interval none

/-- The decoding `JSON.parse` gives the three JSON texts used in the worked
examples of this file. The only other text it is applied to, `<html>`, is one
`JSON.parse` rejects as well. -/
def decodeExamples (s : String) : Option JsVal :=
  if s = "\x7b\"data\":\x7b\"token\":\"t\"\x7d\x7d" then
    some (JsVal.obj [("data", JsVal.obj [("token", JsVal.str "t")])])
  else if s = "\x7b\"data\":true\x7d" then
    some (JsVal.obj [("data", JsVal.bool true)])
  else if s = "\x7b\"data\":\x7b\"id\":\"u1\"\x7d\x7d" then
    some (JsVal.obj [("data", JsVal.obj [("id", JsVal.str "u1")])])
  else none

/-! ## Decimal rendering of loop counters -/

theorem digitChar_value (k : Nat) (hk : k < 10) : (Nat.digitChar k).toNat - 48 = k := by
  interval_cases k <;> rfl

theorem toDigitsCore_acc (f : Nat) : ∀ (n : Nat) (ds : List Char),
    Nat.toDigitsCore 10 f n ds = Nat.toDigitsCore 10 f n [] ++ ds := by
  induction f with
  | zero => intro n ds; simp [Nat.toDigitsCore]
  | succ f ih =>
    intro n ds
    simp only [Nat.toDigitsCore]
    split
    · simp
    · rw [ih (n / 10) (Nat.digitChar (n % 10) :: ds), ih (n / 10) [Nat.digitChar (n % 10)]]
      simp

theorem decimalValue_snoc (ds : List Char) (c : Char) :
    decimalValue (ds ++ [c]) = 10 * decimalValue ds + (c.toNat - 48) := by
  simp [decimalValue, List.foldl_append]

theorem decimalValue_toDigitsCore (f : Nat) : ∀ n : Nat, n < f →
    decimalValue (Nat.toDigitsCore 10 f n []) = n := by
  induction f with
  | zero => intro n h; omega
  | succ f ih =>
    intro n h
    simp only [Nat.toDigitsCore]
    split
    · rename_i h0
      have hlt : n % 10 < 10 := Nat.mod_lt _ (by decide)
      have hv := digitChar_value (n % 10) hlt
      simp only [decimalValue, List.foldl_cons, List.foldl_nil]
      omega
    · rename_i h0
      rw [toDigitsCore_acc f (n / 10) [Nat.digitChar (n % 10)], decimalValue_snoc,
        ih (n / 10) (by omega), digitChar_value (n % 10) (Nat.mod_lt _ (by decide))]
      omega

theorem decimalValue_toString (n : Nat) : decimalValue (toString n).data = n := by
  show decimalValue (Nat.toDigits 10 n).asString.data = n
  simp only [List.asString, Nat.toDigits]
  exact decimalValue_toDigitsCore (n + 1) n (Nat.lt_succ_self n)

theorem toString_nat_injective (i j : Nat) (h : toString i = toString j) : i = j := by
  have hi := decimalValue_toString i
  rw [h, decimalValue_toString j] at hi
  exact hi.symm

/-! ## Password generation -/

theorem charAt_of_lt (s : String) (i : Nat) (h : i < s.data.length) :
    ∃ c, c ∈ s.data ∧ charAt s i = String.singleton c := by
  unfold charAt
  rw [List.get?_eq_get h]
  exact ⟨s.data.get ⟨i, h⟩, List.get_mem _ _ _, rfl⟩

theorem charset_length : Register.charset.data.length = 70 := by decide

theorem singleton_length (c : Char) : (String.singleton c).length = 1 := rfl

theorem singleton_data (c : Char) : (String.singleton c).data = [c] := rfl

theorem generatePasswordLoop_spec (length : Nat) (draw : Nat → Nat)
    (hdraw : ∀ k, k < length → draw k < 70) :
    ∀ (m i : Nat) (password : String), length - i = m → i ≤ length →
      (Register.generatePasswordLoop length draw i password).length
          = password.length + (length - i) ∧
      ∀ c ∈ (Register.generatePasswordLoop length draw i password).data,
          c ∈ password.data ∨ c ∈ Register.charset.data := by
  intro m
  induction m with
  | zero =>
    intro i password hm hi
    rw [Register.generatePasswordLoop]
    have : ¬ i < length := by omega
    simp only [this, if_false]
    exact ⟨by omega, fun c hc => Or.inl hc⟩
  | succ m ih =>
    intro i password hm hi
    rw [Register.generatePasswordLoop]
    have hlt : i < length := by omega
    simp only [hlt, if_true]
    obtain ⟨c0, hc0, hch⟩ :=
      charAt_of_lt Register.charset (draw i) (by rw [charset_length]; exact hdraw i hlt)
    obtain ⟨h1, h2⟩ := ih (i + 1) (password ++ charAt Register.charset (draw i))
      (by omega) (by omega)
    refine ⟨?_, ?_⟩
    · rw [h1, hch, String.length_append, singleton_length]
      omega
    · intro c hc
      rcases h2 c hc with h | h
      · rw [hch, String.data_append, singleton_data, List.mem_append] at h
        rcases h with h | h
        · exact Or.inl h
        · right
          rw [List.mem_singleton] at h
          rw [h]; exact hc0
      · exact Or.inr h

/-- C10: for every drawn length between 8 and 16 and every sequence of
character indices in 0..69, `generatePassword` (a total function: its loop
runs `length` times) returns a string of exactly that length, every character
of which belongs to the 70-character charset, and each `charAt` lookup is in
bounds and yields a non-empty one-character string. -/
theorem generatePassword_spec (length : Nat) (draw : Nat → Nat)
    (hlen : 8 ≤ length ∧ length ≤ 16) (hdraw : ∀ k, k < length → draw k < 70) :
    (Register.generatePassword length draw).length = length ∧
    (∀ c ∈ (Register.generatePassword length draw).data, c ∈ Register.charset.data) ∧
    Register.charset.length = 70 ∧
    (∀ k, k < length → draw k < Register.charset.length ∧
      (charAt Register.charset (draw k)).length = 1 ∧
      charAt Register.charset (draw k) ≠ "") := by
  obtain ⟨h1, h2⟩ := generatePasswordLoop_spec length draw hdraw length 0 "" (by omega)
    (Nat.zero_le _)
  refine ⟨?_, ?_, by decide, ?_⟩
  · unfold Register.generatePassword
    rw [h1]; simp
  · intro c hc
    rcases h2 c hc with h | h
    · simp at h
    · exact h
  · intro k hk
    have hb : draw k < Register.charset.data.length := by
      rw [charset_length]; exact hdraw k hk
    obtain ⟨c0, _, hch⟩ := charAt_of_lt Register.charset (draw k) hb
    refine ⟨hb, ?_, ?_⟩
    · rw [hch]; exact singleton_length c0
    · rw [hch]
      intro h
      have := congrArg String.length h
      rw [singleton_length] at this
      exact absurd this (by decide)

/-- Witness for C10: length 8 with every draw equal to 0. -/
theorem generatePassword_spec_witness :
    (8 ≤ 8 ∧ 8 ≤ 16) ∧ (∀ k, k < 8 → (fun _ : Nat => 0) k < 70) ∧
    (Register.generatePassword 8 (fun _ => 0)).length = 8 ∧
    (∀ c ∈ (Register.generatePassword 8 (fun _ => 0)).data, c ∈ Register.charset.data) :=
  ⟨by decide, fun _ _ => Nat.zero_lt_succ 69,
   (generatePassword_spec 8 (fun _ => 0) (by decide) (fun _ _ => Nat.zero_lt_succ 69)).1,
   (generatePassword_spec 8 (fun _ => 0) (by decide) (fun _ _ => Nat.zero_lt_succ 69)).2.1⟩

/-! ## Seeded emails -/

/-- C9: the emails seeded by `setup` of `update_clients.js` are unique: for
loop indices `i ≠ j` below 1000 and any two 6-character random suffixes, the
email of iteration `i` differs from the email of iteration `j`. -/
theorem clientEmail_injective (i j : Nat) (s t : String)
    (hi : i < UpdateClients.TOTAL_CLIENTS) (hj : j < UpdateClients.TOTAL_CLIENTS)
    (hs : s.length = 6) (ht : t.length = 6) (hij : i ≠ j) :
    UpdateClients.clientEmail i s ≠ UpdateClients.clientEmail j t := by
  intro h
  apply hij
  have hd := congrArg String.data h
  simp only [UpdateClients.clientEmail, String.data_append, List.append_assoc] at hd
  have hd2 := List.append_cancel_left hd
  have hlen : ("_".data ++ (s.data ++ "@test.com".data)).length
      = ("_".data ++ (t.data ++ "@test.com".data)).length := by
    simp only [List.length_append]
    have h1 : s.data.length = 6 := hs
    have h2 : t.data.length = 6 := ht
    omega
  have := (List.append_inj' hd2 hlen).1
  exact toString_nat_injective i j (String.ext_iff.mpr this)

/-- Witness for C9: indices 1 and 12 with suffixes `2_abcd` and `abcdef`. -/
theorem clientEmail_injective_witness :
    (1 < UpdateClients.TOTAL_CLIENTS ∧ 12 < UpdateClients.TOTAL_CLIENTS) ∧
    ("2_abcd".length = 6 ∧ "abcdef".length = 6) ∧ 1 ≠ 12 ∧
    UpdateClients.clientEmail 1 "2_abcd" ≠ UpdateClients.clientEmail 12 "abcdef" :=
  ⟨by decide, by decide, by decide,
   clientEmail_injective 1 12 "2_abcd" "abcdef" (by decide) (by decide) (by decide) (by decide)
    (by decide)⟩

/-! ## Generated payloads -/

theorem generateClientData_channel (randomId app : String) (channelIdx : Nat)
    (contractId : String) (coin : Bool) :
    (CreateClients.generateClientData randomId app channelIdx contractId coin).getProp "channel"
      = Except.ok (CreateClients.index CreateClients.CHANNELS channelIdx) := rfl

theorem generateClientData_stage (randomId app : String) (channelIdx : Nat)
    (contractId : String) (coin : Bool) :
    (CreateClients.generateClientData randomId app channelIdx contractId coin).getProp "stage"
      = Except.ok (JsVal.str "registration") := rfl

theorem clientData_channel (i stageDraw : Nat) (suffix now : String) :
    (UpdateClients.clientData i stageDraw suffix now).getProp "channel"
      = Except.ok (JsVal.str "web") := rfl

theorem clientData_stage (i stageDraw : Nat) (suffix now : String) :
    (UpdateClients.clientData i stageDraw suffix now).getProp "stage"
      = Except.ok (UpdateClients.randomItem UpdateClients.ALL_STAGES stageDraw) := rfl

theorem index_channels (k : Nat) (hk : k ≤ 3) :
    ∃ c, c ∈ CreateClients.CHANNELS ∧ CreateClients.index CreateClients.CHANNELS k = JsVal.str c := by
  interval_cases k
  · exact ⟨"web", by decide, rfl⟩
  · exact ⟨"mobile", by decide, rfl⟩
  · exact ⟨"api", by decide, rfl⟩
  · exact ⟨"partner", by decide, rfl⟩

theorem randomItem_mem (arr : List String) (k : Nat) (hk : k < arr.length) :
    ∃ s, s ∈ arr ∧ UpdateClients.randomItem arr k = JsVal.str s := by
  unfold UpdateClients.randomItem
  rw [List.get?_eq_get hk]
  exact ⟨arr.get ⟨k, hk⟩, List.get_mem _ _ _, rfl⟩

/-- C3: in every generated client payload (the one of `generateClientData` for
every channel index drawn from 0..3, and the one built per client in the
seeding loop of `update_clients.js` for every item drawn from `ALL_STAGES`),
`channel` is one of web, mobile, api, partner (never `undefined`) and `stage`
is a member of the 12-element list `ALL_STAGES`, which runs from registration
to completed. -/
theorem payload_channel_stage (randomId app contractId : String) (coin : Bool)
    (channelIdx : Nat) (hc : channelIdx ≤ 3)
    (i stageDraw : Nat) (suffix now : String)
    (hs : stageDraw < UpdateClients.ALL_STAGES.length) :
    (∃ c, c ∈ ["web", "mobile", "api", "partner"] ∧
      (CreateClients.generateClientData randomId app channelIdx contractId coin).getProp "channel"
        = Except.ok (JsVal.str c)) ∧
    (∃ s, s ∈ UpdateClients.ALL_STAGES ∧
      (CreateClients.generateClientData randomId app channelIdx contractId coin).getProp "stage"
        = Except.ok (JsVal.str s)) ∧
    (∃ c, c ∈ ["web", "mobile", "api", "partner"] ∧
      (UpdateClients.clientData i stageDraw suffix now).getProp "channel"
        = Except.ok (JsVal.str c)) ∧
    (∃ s, s ∈ UpdateClients.ALL_STAGES ∧
      (UpdateClients.clientData i stageDraw suffix now).getProp "stage"
        = Except.ok (JsVal.str s)) ∧
    UpdateClients.ALL_STAGES.length = 12 ∧
    UpdateClients.ALL_STAGES.head? = some "registration" ∧
    UpdateClients.ALL_STAGES.getLast? = some "completed" := by
  refine ⟨?_, ?_, ?_, ?_, rfl, rfl, rfl⟩
  · obtain ⟨c, hmem, hidx⟩ := index_channels channelIdx hc
    exact ⟨c, hmem, by rw [generateClientData_channel, hidx]⟩
  · exact ⟨"registration", by decide, generateClientData_stage _ _ _ _ _⟩
  · exact ⟨"web", by decide, clientData_channel _ _ _ _⟩
  · obtain ⟨s, hmem, hitem⟩ := randomItem_mem UpdateClients.ALL_STAGES stageDraw hs
    exact ⟨s, hmem, by rw [clientData_stage, hitem]⟩

/-- Witness for C3: channel index 3 and stage draw 11. -/
theorem payload_channel_stage_witness :
    (3 ≤ 3 ∧ 11 < UpdateClients.ALL_STAGES.length) ∧
    (∃ c, c ∈ ["web", "mobile", "api", "partner"] ∧
      (CreateClients.generateClientData "u" "abcdef" 3 "abcdefgh" true).getProp "channel"
        = Except.ok (JsVal.str c)) ∧
    (∃ s, s ∈ UpdateClients.ALL_STAGES ∧
      (UpdateClients.clientData 7 11 "abcdef" "2026-01-02T15:04:05.000Z").getProp "stage"
        = Except.ok (JsVal.str s)) :=
  ⟨⟨by decide, by decide⟩,
   (payload_channel_stage "u" "abcdef" "abcdefgh" true 3 (by decide) 7 11 "abcdef"
      "2026-01-02T15:04:05.000Z" (by decide)).1,
   (payload_channel_stage "u" "abcdef" "abcdefgh" true 3 (by decide) 7 11 "abcdef"
      "2026-01-02T15:04:05.000Z" (by decide)).2.2.2.1⟩

/-! ## Request bodies of `POST /api/v1/clients` -/

theorem sentFields_generateClientData (randomId app : String) (channelIdx : Nat)
    (contractId : String) (coin : Bool) (hc : channelIdx ≤ 3) :
    sentFields (CreateClients.generateClientData randomId app channelIdx contractId coin)
      = documentedClientFields := by
  obtain ⟨c, _, hidx⟩ := index_channels channelIdx hc
  simp only [CreateClients.generateClientData, hidx]
  rfl

theorem sentFields_clientData (i stageDraw : Nat) (suffix now : String)
    (hs : stageDraw < UpdateClients.ALL_STAGES.length) :
    sentFields (UpdateClients.clientData i stageDraw suffix now) = seededClientFields := by
  obtain ⟨s, _, hitem⟩ := randomItem_mem UpdateClients.ALL_STAGES stageDraw hs
  simp only [UpdateClients.clientData, hitem]
  rfl

/-- C7, as stated, fails: the body the seeding loop of `update_clients.js`
sends for client 0 does not have the documented field set (it has neither
`app` nor `contracts`). -/
theorem seeded_body_not_documented :
    ¬ hasExactlyFields (UpdateClients.clientData 0 0 "abcdef" "2026-01-02T15:04:05.000Z")
        documentedClientFields := by
  intro h
  have h1 := (h "app").mpr (by decide)
  rw [sentFields_clientData 0 0 _ _ (by decide)] at h1
  exact absurd h1 (by decide)

/-- C7, amended: the body built by `generateClientData` has exactly the
documented field set app, channel, contracts (a list), email, is_active,
last_login, name, source, stage; the body built per client in the seeding loop
of `update_clients.js` has exactly the fields email, name, stage, source,
channel, is_active, last_login, all of which are documented fields. -/
theorem request_body_fields (randomId app contractId : String) (coin : Bool)
    (channelIdx : Nat) (hc : channelIdx ≤ 3)
    (i stageDraw : Nat) (suffix now : String)
    (hs : stageDraw < UpdateClients.ALL_STAGES.length) :
    hasExactlyFields (CreateClients.generateClientData randomId app channelIdx contractId coin)
      documentedClientFields ∧
    (∃ items, (CreateClients.generateClientData randomId app channelIdx contractId coin).getProp
      "contracts" = Except.ok (JsVal.arr items)) ∧
    hasExactlyFields (UpdateClients.clientData i stageDraw suffix now) seededClientFields ∧
    (∀ f, f ∈ seededClientFields → f ∈ documentedClientFields) := by
  refine ⟨?_, ⟨_, rfl⟩, ?_, by decide⟩
  · intro f; rw [sentFields_generateClientData _ _ _ _ _ hc]
  · intro f; rw [sentFields_clientData _ _ _ _ hs]

/-- Witness for the amended C7: channel index 0 and stage draw 0. -/
theorem request_body_fields_witness :
    (0 ≤ 3 ∧ 0 < UpdateClients.ALL_STAGES.length) ∧
    hasExactlyFields (CreateClients.generateClientData "u" "abcdef" 0 "abcdefgh" false)
      documentedClientFields ∧
    hasExactlyFields (UpdateClients.clientData 0 0 "abcdef" "2026-01-02T15:04:05.000Z")
      seededClientFields :=
  ⟨⟨by decide, by decide⟩,
   (request_body_fields "u" "abcdef" "abcdefgh" false 0 (by decide) 0 0 "abcdef"
      "2026-01-02T15:04:05.000Z" (by decide)).1,
   (request_body_fields "u" "abcdef" "abcdefgh" false 0 (by decide) 0 0 "abcdef"
      "2026-01-02T15:04:05.000Z" (by decide)).2.2.1⟩

/-! ## The stage an update iteration sends -/

/-- C8, on the code: the `stage` of the update payload is the constant
`registration` for every client, also in the payload of every iteration that
returns, so no random choice of an iteration sends any other member of
`ALL_STAGES`; `completed`, for one, is in `ALL_STAGES` and is never sent. -/
theorem updatePayload_stage_fixed :
    (∀ client : UpdateClients.Client,
      (UpdateClients.updatePayload client).getProp "stage"
        = Except.ok (JsVal.str "registration")) ∧
    "completed" ∈ UpdateClients.ALL_STAGES ∧
    (∀ (parse : String → Option JsVal) (data : UpdateClients.Seeded) (randomIndex : Nat)
        (res : Response),
      match UpdateClients.default parse data randomIndex res with
      | Except.ok it => it.payload.getProp "stage" = Except.ok (JsVal.str "registration")
      | Except.error _ => True) := by
  refine ⟨fun _ => rfl, by decide, ?_⟩
  intro parse data randomIndex res
  unfold UpdateClients.default
  cases data.clients.get? randomIndex with
  | none => trivial
  | some client =>
    dsimp only
    cases runChecks res (UpdateClients.checks parse) with
    | error e => trivial
    | ok recs =>
      dsimp only
      cases hp : allPassed recs with
      | false => trivial
      | true => exact rfl

/-! ## Metrics query variations -/

theorem variation_conforms (n : Nat) :
    ∃ v, GetMetrics.variations.get? (n % GetMetrics.variations.length) = some v ∧
      GetMetrics.variation n = v ∧
      ∃ interval page, v = GetMetrics.documentedQuery interval page := by
  have hlt : n % GetMetrics.variations.length < 6 := Nat.mod_lt _ (by decide)
  unfold GetMetrics.variation
  generalize n % GetMetrics.variations.length = k at hlt
  interval_cases k
  · exact ⟨_, rfl, rfl, none, none, by decide⟩
  · exact ⟨_, rfl, rfl, some GetMetrics.Interval.day, none, by decide⟩
  · exact ⟨_, rfl, rfl, some GetMetrics.Interval.week, none, by decide⟩
  · exact ⟨_, rfl, rfl, some GetMetrics.Interval.month, none, by decide⟩
  · exact ⟨_, rfl, rfl, none, some (10, 0), by decide⟩
  · exact ⟨_, rfl, rfl, some GetMetrics.Interval.day, some (50, 100), by decide⟩

theorem url_cases (n : Nat) :
    GetMetrics.url n = "http://localhost:80/api/v1/metrics?type=rollback-count" ∨
    GetMetrics.url n = "http://localhost:80/api/v1/metrics?type=rollback-count&interval=day" ∨
    GetMetrics.url n = "http://localhost:80/api/v1/metrics?type=rollback-count&interval=week" ∨
    GetMetrics.url n = "http://localhost:80/api/v1/metrics?type=rollback-count&interval=month" ∨
    GetMetrics.url n
      = "http://localhost:80/api/v1/metrics?type=rollback-count&limit=10&offset=0" ∨
    GetMetrics.url n
      = "http://localhost:80/api/v1/metrics?type=rollback-count&interval=day&limit=50&offset=100" := by
  have hlt : n % GetMetrics.variations.length < 6 := Nat.mod_lt _ (by decide)
  unfold GetMetrics.url GetMetrics.variation
  generalize n % GetMetrics.variations.length = k at hlt
  interval_cases k
  · exact Or.inl (by decide)
  · exact Or.inr (Or.inl (by decide))
  · exact Or.inr (Or.inr (Or.inl (by decide)))
  · exact Or.inr (Or.inr (Or.inr (Or.inl (by decide))))
  · exact Or.inr (Or.inr (Or.inr (Or.inr (Or.inl (by decide)))))
  · exact Or.inr (Or.inr (Or.inr (Or.inr (Or.inr (by decide)))))

/-- No request URL of the scenario starts with the text `pre`, when none of
the six URLs does. -/
theorem url_never_starts_with (pre : List Char)
    (h0 : ¬ pre <+: "http://localhost:80/api/v1/metrics?type=rollback-count".data)
    (h1 : ¬ pre <+: "http://localhost:80/api/v1/metrics?type=rollback-count&interval=day".data)
    (h2 : ¬ pre <+: "http://localhost:80/api/v1/metrics?type=rollback-count&interval=week".data)
    (h3 : ¬ pre <+: "http://localhost:80/api/v1/metrics?type=rollback-count&interval=month".data)
    (h4 : ¬ pre <+:
      "http://localhost:80/api/v1/metrics?type=rollback-count&limit=10&offset=0".data)
    (h5 : ¬ pre <+:
      "http://localhost:80/api/v1/metrics?type=rollback-count&interval=day&limit=50&offset=100".data)
    (n : Nat) (rest : String) : GetMetrics.url n ≠ String.mk pre ++ rest := by
  intro h
  have hp : pre <+: (GetMetrics.url n).data := by
    rw [h, String.data_append]
    exact List.prefix_append _ _
  rcases url_cases n with e | e | e | e | e | e <;> rw [e] at hp
  · exact h0 hp
  · exact h1 hp
  · exact h2 hp
  · exact h3 hp
  · exact h4 hp
  · exact h5 hp

theorem paged_week_text (limit offset : Nat) :
    GetMetrics.BASE_URL ++ "/api/v1/metrics"
      ++ GetMetrics.documentedQuery (some GetMetrics.Interval.week) (some (limit, offset))
    = String.mk "http://localhost:80/api/v1/metrics?type=rollback-count&interval=week&limit=".data
      ++ (toString limit ++ "&offset=" ++ toString offset) := by
  apply String.ext_iff.mpr
  simp only [GetMetrics.documentedQuery, GetMetrics.BASE_URL, GetMetrics.Interval.text,
    String.data_append, List.append_assoc]
  rfl

theorem paged_month_text (limit offset : Nat) :
    GetMetrics.BASE_URL ++ "/api/v1/metrics"
      ++ GetMetrics.documentedQuery (some GetMetrics.Interval.month) (some (limit, offset))
    = String.mk "http://localhost:80/api/v1/metrics?type=rollback-count&interval=month&limit=".data
      ++ (toString limit ++ "&offset=" ++ toString offset) := by
  apply String.ext_iff.mpr
  simp only [GetMetrics.documentedQuery, GetMetrics.BASE_URL, GetMetrics.Interval.text,
    String.data_append, List.append_assoc]
  rfl

theorem week_paged_not_exercised (n : Nat) :
    ¬ exercises n (some GetMetrics.Interval.week) true := by
  rintro ⟨limit, offset, h⟩
  rw [paged_week_text] at h
  exact url_never_starts_with _ (by decide) (by decide) (by decide) (by decide) (by decide) (by decide)
    n _ h

theorem month_paged_not_exercised (n : Nat) :
    ¬ exercises n (some GetMetrics.Interval.month) true := by
  rintro ⟨limit, offset, h⟩
  rw [paged_month_text] at h
  exact url_never_starts_with _ (by decide) (by decide) (by decide) (by decide) (by decide) (by decide)
    n _ h

/-- C6, as stated, fails: the documented combination `interval=week` with a
limit/offset pair is requested by no iteration. -/
theorem week_with_paging_never_requested :
    ¬ ∃ n, exercises n (some GetMetrics.Interval.week) true :=
  fun ⟨n, h⟩ => week_paged_not_exercised n h

/-- C6, amended: for every iteration counter the selected entry
`variations[n mod 6]` is defined and has the documented form
`?type=rollback-count[&interval=day|week|month][&limit=N&offset=M]`; the
documented combinations some iteration requests are exactly six: every
interval choice (none, day, week, month) without the limit/offset pair, and
the choices none and day with it. -/
theorem metrics_variations_coverage :
    (∀ n : Nat, ∃ v,
      GetMetrics.variations.get? (n % GetMetrics.variations.length) = some v ∧
      GetMetrics.variation n = v ∧
      ∃ interval page, v = GetMetrics.documentedQuery interval page) ∧
    GetMetrics.variations.length = 6 ∧
    (∀ (interval : Option GetMetrics.Interval) (paged : Bool),
      (∃ n, exercises n interval paged) ↔
        (paged = false ∨ interval = none ∨ interval = some GetMetrics.Interval.day)) := by
  refine ⟨variation_conforms, rfl, ?_⟩
  intro interval paged
  constructor
  · rintro ⟨n, h⟩
    cases paged with
    | false => exact Or.inl rfl
    | true =>
      right
      match interval, h with
      | none, _ => exact Or.inl rfl
      | some GetMetrics.Interval.day, _ => exact Or.inr rfl
      | some GetMetrics.Interval.week, h => exact absurd h (week_paged_not_exercised n)
      | some GetMetrics.Interval.month, h => exact absurd h (month_paged_not_exercised n)
  · intro h
    cases paged with
    | false =>
      match interval with
      | none => exact ⟨0, show GetMetrics.url 0 = _ by decide⟩
      | some GetMetrics.Interval.day => exact ⟨1, show GetMetrics.url 1 = _ by decide⟩
      | some GetMetrics.Interval.week => exact ⟨2, show GetMetrics.url 2 = _ by decide⟩
      | some GetMetrics.Interval.month => exact ⟨3, show GetMetrics.url 3 = _ by decide⟩
    | true =>
      rcases h with h | h | h
      · cases h
      · subst h; exact ⟨4, 10, 0, by decide⟩
      · subst h; exact ⟨5, 50, 100, by decide⟩

/-! ## Checks and exceptions -/

theorem tryCatchFalse_ok (body : Except JsError JsVal) :
    ∃ v, tryCatchFalse body = Except.ok v := by
  cases body with
  | error e => exact ⟨_, rfl⟩
  | ok v => exact ⟨_, rfl⟩

/-- The three login-guarded `setup` functions raise on every status other than
200, whatever the body. -/
theorem setup_guard (parse : String → Option JsVal) (loginRes : Response)
    (h : loginRes.status ≠ 200) :
    (∃ msg, CreateClients.setup parse loginRes = Except.error (JsError.error msg)) ∧
    (∃ msg, GetUserById.setup parse loginRes = Except.error (JsError.error msg)) ∧
    (∀ suffix createRes, ∃ msg,
      UpdateClients.setup parse loginRes suffix createRes = Except.error (JsError.error msg)) := by
  refine ⟨?_, ?_, ?_⟩
  · unfold CreateClients.setup; rw [if_pos h]; exact ⟨_, rfl⟩
  · unfold GetUserById.setup; rw [if_pos h]; exact ⟨_, rfl⟩
  · intro suffix createRes
    unfold UpdateClients.setup; rw [if_pos h]; exact ⟨_, rfl⟩

/-- C2, on the code: `setup` of `get_metrics.js` has no status test. For the
login response with status 401 and body `{"data":{"token":"t"}}` it raises
nothing and returns the session with token `t`, while `setup` of
`create_clients.js` raises on the same response. -/
theorem metrics_setup_returns_on_401 :
    GetMetrics.setup decodeExamples
        { status := 401, body := some "\x7b\"data\":\x7b\"token\":\"t\"\x7d\x7d",
          headers := [], duration := 0 }
      = Except.ok { token := JsVal.str "t" } ∧
    CreateClients.setup decodeExamples
        { status := 401, body := some "\x7b\"data\":\x7b\"token\":\"t\"\x7d\x7d",
          headers := [], duration := 0 }
      = Except.error (JsError.error "Login failed: 401") := by
  constructor
  · rfl
  · rfl

theorem hasData_eq (parse : String → Option JsVal) (r : Response) :
    UpdateClients.hasData parse r = Except.ok (JsVal.bool
      (match JSONparse parse r.body with
       | Except.ok json =>
         (match json.getProp "data" with
          | Except.ok d => d.truthy
          | Except.error _ => false)
       | Except.error _ => false)) := by
  unfold UpdateClients.hasData
  cases JSONparse parse r.body with
  | error e => rfl
  | ok json =>
    cases hd : json.getProp "data" with
    | error e => simp [tryCatchFalse, bind, Except.bind, hd]
    | ok d => simp [tryCatchFalse, bind, Except.bind, hd, pure, Except.pure]

theorem update_runChecks_eq (parse : String → Option JsVal) (r : Response) :
    runChecks r (UpdateClients.checks parse) = Except.ok
      [ ("status is 200", r.status == 200),
        ("response has data",
          (match JSONparse parse r.body with
           | Except.ok json =>
             (match json.getProp "data" with
              | Except.ok d => d.truthy
              | Except.error _ => false)
           | Except.error _ => false)) ] := by
  simp only [UpdateClients.checks, runChecks, hasData_eq]
  rfl

/-- C4, as stated, fails: for the response with status 200 and body
`{"data":true}` every check of the update iteration passes, although the
`data` field of the body is neither an object nor an array. -/
theorem update_checks_pass_without_object :
    ∃ recs,
      runChecks { status := 200, body := some "\x7b\"data\":true\x7d", headers := [],
                  duration := 0 } (UpdateClients.checks decodeExamples) = Except.ok recs ∧
      allPassed recs = true ∧
      ¬ ∃ json d, JSONparse decodeExamples (some "\x7b\"data\":true\x7d") = Except.ok json ∧
          json.getProp "data" = Except.ok d ∧ (d.isObject = true ∨ d.isArray = true) := by
  refine ⟨_, update_runChecks_eq _ _, rfl, ?_⟩
  rintro ⟨json, d, hj, hd, ho⟩
  have hj2 : JSONparse decodeExamples (some "\x7b\"data\":true\x7d")
      = Except.ok (JsVal.obj [("data", JsVal.bool true)]) := rfl
  rw [hj2] at hj
  cases hj
  have hd2 : (JsVal.obj [("data", JsVal.bool true)]).getProp "data"
      = Except.ok (JsVal.bool true) := rfl
  rw [hd2] at hd
  cases hd
  rcases ho with h | h <;> cases h

/-- C4, amended: in the update-stage scenario, for every response, the check
set raises nothing, and the checks all pass exactly when the status is 200 and
the body parses as JSON whose `data` field is truthy (anything but absent,
`null`, `false`, `0` or the empty string; every object and array is truthy);
a body that does not parse makes the check `response has data` return false
rather than raise. -/
theorem update_checks_pass_iff (parse : String → Option JsVal) (res : Response) :
    ∃ recs, runChecks res (UpdateClients.checks parse) = Except.ok recs ∧
      (allPassed recs = true ↔
        res.status = 200 ∧ ∃ json d, JSONparse parse res.body = Except.ok json ∧
          json.getProp "data" = Except.ok d ∧ d.truthy = true) ∧
      (∀ d : JsVal, d.isObject = true ∨ d.isArray = true → d.truthy = true) ∧
      (∀ e, JSONparse parse res.body = Except.error e →
        UpdateClients.hasData parse res = Except.ok (JsVal.bool false)) := by
  refine ⟨_, update_runChecks_eq parse res, ?_, ?_, ?_⟩
  · cases hj : JSONparse parse res.body with
    | error e => simp [allPassed]
    | ok json =>
      cases hd : json.getProp "data" with
      | error e => simp [allPassed, hd]
      | ok d => simp [allPassed, hd]
  · intro d hd
    cases d <;> simp [JsVal.isObject, JsVal.isArray, JsVal.truthy] at hd ⊢
  · intro e he
    rw [hasData_eq, he]

/-- Witness for the amended C4: a body the decoder rejects. -/
theorem update_checks_pass_iff_witness :
    UpdateClients.hasData decodeExamples
      { status := 200, body := some "<html>", headers := [], duration := 0 }
      = Except.ok (JsVal.bool false) :=
  (update_checks_pass_iff decodeExamples
      { status := 200, body := some "<html>", headers := [], duration := 0 }).choose_spec.2.2.2
    JsError.syntaxError rfl

theorem strictEq_scalar (v userId : JsVal) (h : userId.isScalar = true) :
    v.strictEq userId = true ↔ v = userId := by
  cases v <;> cases userId <;> simp [JsVal.strictEq, JsVal.isScalar] at h ⊢

theorem hasUserData_eq (parse : String → Option JsVal) (userId : JsVal) (r : Response) :
    GetUserById.hasUserData parse userId r = Except.ok
      (match JSONparse parse r.body with
       | Except.ok json =>
         (match json.getProp "data" with
          | Except.ok d =>
            if d.truthy then
              (match d.getProp "id" with
               | Except.ok id => JsVal.bool (id.strictEq userId)
               | Except.error _ => JsVal.bool false)
            else d
          | Except.error _ => JsVal.bool false)
       | Except.error _ => JsVal.bool false) := by
  unfold GetUserById.hasUserData
  cases JSONparse parse r.body with
  | error e => rfl
  | ok json =>
    cases hd : json.getProp "data" with
    | error e => simp [tryCatchFalse, bind, Except.bind, hd]
    | ok d =>
      by_cases ht : d.truthy = true
      · cases hi : d.getProp "id" with
        | error e => simp [tryCatchFalse, bind, Except.bind, hd, ht, hi]
        | ok id => simp [tryCatchFalse, bind, Except.bind, hd, ht, hi, pure, Except.pure]
      · simp [tryCatchFalse, bind, Except.bind, hd, ht, pure, Except.pure]

/-- C5, as stated, fails: for a session without a user id (`data.userId` is
`undefined`) and the body `{"data":true}` the check `response has user data`
passes, although the body has no `data` object. -/
theorem hasUserData_passes_without_object :
    GetUserById.hasUserData decodeExamples JsVal.undefined
        { status := 200, body := some "\x7b\"data\":true\x7d", headers := [], duration := 0 }
      = Except.ok (JsVal.bool true) ∧
    (JsVal.bool true).truthy = true ∧
    ¬ ∃ json d, JSONparse decodeExamples (some "\x7b\"data\":true\x7d") = Except.ok json ∧
        json.getProp "data" = Except.ok d ∧ d.isObject = true := by
  refine ⟨rfl, rfl, ?_⟩
  rintro ⟨json, d, hj, hd, ho⟩
  have hj2 : JSONparse decodeExamples (some "\x7b\"data\":true\x7d")
      = Except.ok (JsVal.obj [("data", JsVal.bool true)]) := rfl
  rw [hj2] at hj
  cases hj
  have hd2 : (JsVal.obj [("data", JsVal.bool true)]).getProp "data"
      = Except.ok (JsVal.bool true) := rfl
  rw [hd2] at hd
  cases hd
  cases ho

theorem strictEq_undefined_scalar (userId : JsVal) (h : userId.isScalar = true) :
    JsVal.undefined.strictEq userId = false := by
  cases userId <;> simp [JsVal.strictEq, JsVal.isScalar] at h ⊢

theorem truthy_of_isObject (d : JsVal) (h : d.isObject = true) : d.truthy = true := by
  cases d <;> simp [JsVal.isObject, JsVal.truthy] at h ⊢

theorem getProp_id_of_not_object (d : JsVal) (ho : d.isObject = false)
    (ht : d.truthy = true) : d.getProp "id" = Except.ok JsVal.undefined := by
  have hne : ¬ ("id" = "length") := by decide
  cases d with
  | undefined => simp [JsVal.truthy] at ht
  | null => simp [JsVal.truthy] at ht
  | bool b => rfl
  | num n => rfl
  | str s => simp [JsVal.getProp, hne]
  | arr items => simp [JsVal.getProp, hne]
  | obj fields => simp [JsVal.isObject] at ho

theorem hasUserData_core (d userId : JsVal) (hs : userId.isScalar = true) :
    (if d.truthy = true then
        (match d.getProp "id" with
         | Except.ok id => JsVal.bool (id.strictEq userId)
         | Except.error _ => JsVal.bool false)
      else d).truthy = true ↔
    (d.isObject = true ∧ d.getProp "id" = Except.ok userId) := by
  by_cases ht : d.truthy = true
  · rw [if_pos ht]
    cases ho : d.isObject with
    | false =>
      rw [getProp_id_of_not_object d ho ht]
      show (JsVal.bool (JsVal.undefined.strictEq userId)).truthy = true ↔ _
      rw [strictEq_undefined_scalar userId hs]
      simp [JsVal.truthy]
    | true =>
      cases d with
      | obj fields =>
        simp only [JsVal.truthy, JsVal.getProp, true_and, Except.ok.injEq]
        exact strictEq_scalar _ _ hs
      | undefined => simp [JsVal.isObject] at ho
      | null => simp [JsVal.isObject] at ho
      | bool b => simp [JsVal.isObject] at ho
      | num n => simp [JsVal.isObject] at ho
      | str s => simp [JsVal.isObject] at ho
      | arr items => simp [JsVal.isObject] at ho
  · rw [if_neg ht]
    constructor
    · intro h; exact absurd h ht
    · rintro ⟨ho, _⟩; exact absurd (truthy_of_isObject d ho) ht

/-- C5, amended: in the get-user-by-id scenario, for every session user id
that is a string, a number, a boolean or `null`, and every response body, the
check `response has user data` raises nothing and passes exactly when the body
parses as JSON with a `data` object whose `id` equals the session's user id;
for a body that is not valid JSON the check returns false and does not
raise. -/
theorem hasUserData_iff (parse : String → Option JsVal) (userId : JsVal) (res : Response)
    (hs : userId.isScalar = true) :
    ∃ v, GetUserById.hasUserData parse userId res = Except.ok v ∧
      (v.truthy = true ↔
        ∃ json d, JSONparse parse res.body = Except.ok json ∧
          json.getProp "data" = Except.ok d ∧ d.isObject = true ∧
          d.getProp "id" = Except.ok userId) ∧
      (∀ e, JSONparse parse res.body = Except.error e → v = JsVal.bool false) := by
  refine ⟨_, hasUserData_eq parse userId res, ?_, ?_⟩
  · cases hj : JSONparse parse res.body with
    | error e =>
      constructor
      · intro h; simp [JsVal.truthy] at h
      · rintro ⟨json, d, hj2, _⟩; cases hj2
    | ok json =>
      cases hd : json.getProp "data" with
      | error e =>
        simp only [hd]
        constructor
        · intro h; simp [JsVal.truthy] at h
        · rintro ⟨json2, d, hj2, hd2, _⟩
          cases hj2
          rw [hd] at hd2
          cases hd2
      | ok d =>
        simp only [hd]
        constructor
        · intro h
          exact ⟨json, d, rfl, hd, (hasUserData_core d userId hs).mp h⟩
        · rintro ⟨json2, d2, hj2, hd2, h⟩
          cases hj2
          rw [hd] at hd2
          cases hd2
          exact (hasUserData_core d userId hs).mpr h
  · intro e he
    rw [he]

/-- Witness for the amended C5: user id `u1` and the body
`{"data":{"id":"u1"}}`. -/
theorem hasUserData_iff_witness :
    (JsVal.str "u1").isScalar = true ∧
    ∃ v, GetUserById.hasUserData decodeExamples (JsVal.str "u1")
        { status := 200, body := some "\x7b\"data\":\x7b\"id\":\"u1\"\x7d\x7d", headers := [],
          duration := 0 } = Except.ok v ∧
      (v.truthy = true ↔
        ∃ json d, JSONparse decodeExamples (some "\x7b\"data\":\x7b\"id\":\"u1\"\x7d\x7d")
            = Except.ok json ∧
          json.getProp "data" = Except.ok d ∧ d.isObject = true ∧
          d.getProp "id" = Except.ok (JsVal.str "u1")) :=
  ⟨rfl,
    (hasUserData_iff decodeExamples (JsVal.str "u1")
      { status := 200, body := some "\x7b\"data\":\x7b\"id\":\"u1\"\x7d\x7d", headers := [],
        duration := 0 } rfl).imp (fun _ h => ⟨h.1, h.2.1⟩)⟩

/-! ## Iterations that raise -/

/-- An update iteration whose response status is not 200 raises. -/
theorem update_default_raises (parse : String → Option JsVal) (data : UpdateClients.Seeded)
    (randomIndex : Nat) (res : Response) (h : res.status ≠ 200) :
    ∃ e, UpdateClients.default parse data randomIndex res = Except.error e := by
  unfold UpdateClients.default
  cases data.clients.get? randomIndex with
  | none => exact ⟨_, rfl⟩
  | some client =>
    simp only [update_runChecks_eq]
    have : (res.status == 200) = false := by simpa using h
    simp [allPassed, this]

/-- The default functions of the get-user-by-id and metrics scenarios return
their check records for every session and response. -/
theorem get_defaults_return (parse : String → Option JsVal) (data : Session) (iter : Nat)
    (res : Response) :
    (∃ recs, GetUserById.default parse data res = Except.ok recs) ∧
    (∃ it, GetMetrics.default iter res = Except.ok it) := by
  constructor
  · unfold GetUserById.default
    simp only [GetUserById.checks, runChecks, hasUserData_eq]
    exact ⟨_, rfl⟩
  · exact ⟨_, rfl⟩

/-- C1, on the code: three default functions raise. In `update_clients.js`,
with one seeded client and a response of status 500, the failure log reads the
undeclared `targetStage`: a ReferenceError, whatever the decoder makes of the
body. In `create_clients.js`, a failed response without a body raises a
TypeError at `res.body.substring`. In `test.js`, a response without a
`Content-Type` header raises a TypeError inside the check set. -/
theorem default_raises :
    (∀ parse : String → Option JsVal,
      UpdateClients.default parse
        { token := JsVal.str "t",
          clients := [{ id := JsVal.str "c1", email := "client_0_abcdef@test.com",
                        current_stage := JsVal.str "registration" }] }
        0
        { status := 500, body := some "Internal Server Error", headers := [], duration := 12 }
      = Except.error JsError.referenceError) ∧
    CreateClients.default "u" "abcdef" 0 "abcdefgh" true
        { status := 0, body := none, headers := [], duration := 0 }
      = Except.error JsError.typeError ∧
    Register.default { status := 500, body := some "", headers := [], duration := 3 }
      = Except.error JsError.typeError := by
  refine ⟨?_, rfl, rfl⟩
  intro parse
  unfold UpdateClients.default
  simp only [update_runChecks_eq]
  rfl

end TrackMe
